import Mathlib

/-!
Verification of the MIDI-to-REST dispatch pipeline of
`foundry-rest-api-midi-integration`, shallowly embedded from the Python
source (`src/api_client.py`, `src/midi_handler.py`, `src/config_manager.py`,
`src/app.py`, `src/ui/mapping_widget.py`).

Python strings are modelled as Lean `String`s; the Python string operations
used by the code (`str.split` on a single-character separator, `str.join`,
`str.startswith`, slicing `s[1:]`, `str(int)`, `int(str)`, membership
`c in s`) are given executable definitions over the underlying character
list, matching Python semantics on the inputs the program produces.
Python dicts are modelled as association lists in insertion order;
`d[k] = v` replaces the first binding of `k` or appends.
-/

namespace FoundryMidi

/-- Python `s.split(sep)` for a single-character separator, on char lists:
splitting the empty string yields `[[]]`, a separator at either end yields
an empty field, exactly as in Python. -/
def splitChar (sep : Char) : List Char → List (List Char)
  | [] => [[]]
  | c :: rest =>
    if c = sep then [] :: splitChar sep rest
    else
      match splitChar sep rest with
      | [] => [[c]]
      | g :: gs => (c :: g) :: gs

/-- Python `sep.join(parts)` on char lists. -/
def joinChar (sep : Char) : List (List Char) → List Char
  | [] => []
  | [g] => g
  | g :: gs => g ++ sep :: joinChar sep gs

/-- Python `s.split(sep)` lifted to `String`. -/
def pySplit (s : String) (sep : Char) : List String :=
  (splitChar sep s.data).map String.mk

/-- Python `sep.join(parts)` lifted to `String` (single-character separator). -/
def pyJoin (sep : Char) (parts : List String) : String :=
  String.mk (joinChar sep (parts.map String.data))

/-- Python `s.startswith(c)` for a single-character prefix. -/
def pyStartsWith (s : String) (c : Char) : Bool :=
  match s.data with
  | [] => false
  | c' :: _ => c' = c

/-- Python slicing `s[1:]`. -/
def pyDrop1 (s : String) : String := String.mk (s.data.drop 1)

/-- Python `c in s` for a single character. -/
def pyContainsChar (s : String) (c : Char) : Bool := s.data.contains c

/-- Python `s.split(sep, 1)` when `sep` occurs in `s`: the part before the
first separator and the part after it. -/
def pySplit1 (s : String) (sep : Char) : String × String :=
  (String.mk (s.data.takeWhile (· ≠ sep)),
   String.mk ((s.data.dropWhile (· ≠ sep)).drop 1))

/-- Python `str(n)` for a non-negative integer: decimal digits, most
significant first.  The fuel argument bounds the recursion; `n + 1` fuel
always suffices. -/
def natToCharsAux : Nat → Nat → List Char
  | 0, _ => []
  | fuel + 1, n =>
    if n < 10 then [Char.ofNat (48 + n)]
    else natToCharsAux fuel (n / 10) ++ [Char.ofNat (48 + n % 10)]

/-- Python `str(n)` for a `Nat`. -/
def pyStrOfNat (n : Nat) : String := String.mk (natToCharsAux (n + 1) n)

/-- Decimal digit test, `'0' ≤ c ≤ '9'`. -/
def isDigitChar (c : Char) : Bool := 48 ≤ c.toNat && c.toNat ≤ 57

/-- Python `int(s)` restricted to the non-negative decimal strings the
program itself writes; any other input raises `ValueError` in Python,
modelled as `none`. -/
def pyToNat? (s : String) : Option Nat :=
  if s.data ≠ [] && s.data.all isDigitChar then
    some (s.data.foldl (fun acc c => acc * 10 + (c.toNat - 48)) 0)
  else none

/-- Python dict lookup `d.get(k)` on an insertion-ordered association list. -/
def dlookup {α β : Type} [DecidableEq α] : List (α × β) → α → Option β
  | [], _ => none
  | (k, v) :: rest, key => if k = key then some v else dlookup rest key

/-- Python dict assignment `d[k] = v`: replace the binding if the key is
present, append otherwise. -/
def dinsert {α β : Type} [DecidableEq α] : List (α × β) → α → β → List (α × β)
  | [], key, v => [(key, v)]
  | (k, w) :: rest, key, v =>
    if k = key then (key, v) :: rest else (k, w) :: dinsert rest key v

/-! ## MIDI messages (`mido` message objects as consumed by `src/midi_handler.py`) -/

/-- A raw `mido` message.  The constructor determines the `type` string and
which attributes exist (`note`/`velocity` for note messages, `control`/`value`
for control changes); `other` stands for any further channel message type
(`program_change`, `pitchwheel`, …), whose type string is never one of the
three handled ones. -/
inductive MidiMessage : Type
  | note_on (channel note velocity : Nat)
  | note_off (channel note velocity : Nat)
  | control_change (channel control value : Nat)
  | other (type : String) (channel : Nat)
deriving DecidableEq, Repr

/-- Python `message.type`. -/
def MidiMessage.typeStr : MidiMessage → String
  | .note_on _ _ _ => "note_on"
  | .note_off _ _ _ => "note_off"
  | .control_change _ _ _ => "control_change"
  | .other t _ => t

/-- Python `message.channel`. -/
def MidiMessage.channel : MidiMessage → Nat
  | .note_on ch _ _ => ch
  | .note_off ch _ _ => ch
  | .control_change ch _ _ => ch
  | .other _ ch => ch

/-- Python `getattr(message, 'note', -1)`. -/
def MidiMessage.noteAttr : MidiMessage → Int
  | .note_on _ n _ => n
  | .note_off _ n _ => n
  | _ => -1

/-- Python `getattr(message, 'control', -1)`. -/
def MidiMessage.controlAttr : MidiMessage → Int
  | .control_change _ c _ => c
  | _ => -1

/-! ## MIDI listener dedup loop (`MidiListenerThread.run`, midi_handler.py:23-53) -/

/-- The dedup key built at midi_handler.py:31-33:
`(message.type, message.channel, getattr(message,'note',-1), getattr(message,'control',-1))`. -/
def messageKey (m : MidiMessage) : String × Nat × Int × Int :=
  (m.typeStr, m.channel, m.noteAttr, m.controlAttr)

/-- The listener's `_message_buffer`: dedup key ↦ timestamp of the last
accepted occurrence.  Timestamps (`time.time()` floats, in seconds) are
modelled as rationals. -/
abbrev MsgBuffer := List ((String × Nat × Int × Int) × ℚ)

/-- `self._buffer_timeout = 0.1` (100 ms), midi_handler.py:20. -/
def bufferTimeout : ℚ := 1 / 10

/-- One iteration of the message loop in `MidiListenerThread.run` for a
message arriving at time `t`: returns the updated buffer and whether the
message was emitted (`midi_event.emit`) or skipped by the `continue`. -/
def listenerStep (buf : MsgBuffer) (m : MidiMessage) (t : ℚ) :
    MsgBuffer × Bool :=
  let key := messageKey m
  match dlookup buf key with
  | some ts =>
    if m.typeStr ∉ (["note_off", "note_on"] : List String) ∧ t - ts < bufferTimeout then
      (buf, false)
    else
      (dinsert buf key t, true)
  | none => (dinsert buf key t, true)

/-- One item observed by the polling loop: either a pending message with its
arrival time, or a fault raised by the MIDI backend mid-stream. -/
inductive PollEvent : Type
  | msg (m : MidiMessage) (t : ℚ)
  | fault (desc : String)
deriving Repr

/-- The body of `MidiListenerThread.run` after the port is open: process
events until the list ends or a fault is raised; the surrounding
`try/except` turns a fault into a single `logger.error` entry and the
loop terminates.  Returns `(error log entries, emitted messages)`. -/
def listenerLoop (buf : MsgBuffer) : List PollEvent → List String × List MidiMessage
  | [] => ([], [])
  | .fault d :: _ => (["MIDI Error: " ++ d], [])
  | .msg m t :: rest =>
    let step := listenerStep buf m t
    let next := listenerLoop step.1 rest
    (next.1, if step.2 then m :: next.2 else next.2)

/-- `MidiListenerThread.run`: `mido.open_input` may itself fail (modelled by
`portOpens = false` with exception text `openErr`), in which case the
`except` clause logs one error and no message is ever emitted; otherwise the
polling loop runs with an empty dedup buffer. -/
def listenerRun (portOpens : Bool) (openErr : String)
    (events : List PollEvent) : List String × List MidiMessage :=
  if portOpens then listenerLoop [] events
  else (["MIDI Error: " ++ openErr], [])

/-- `MidiHandler.connect_to_device` (midi_handler.py:98-116).  Its `try`
block constructs the listener thread, connects the signal and starts the
thread; none of these opens the MIDI port — the port is opened inside
`MidiListenerThread.run` on the new thread — so the returned boolean
depends only on whether thread construction/start raises, not on whether
the port can be opened. -/
def connect_to_device (threadStartRaises portOpens : Bool) : Bool :=
  if threadStartRaises then false else true

/-! ## Signal matcher (`MidiHandler._process_midi_message`, midi_handler.py:151-161) -/

/-- The trigger-key computation of `_process_midi_message`: the `if/elif`
chain over `message.type` and `message.velocity`. -/
def matchKey : MidiMessage → Option (String × Nat × Nat)
  | .note_on ch n v =>
    if v > 0 then some ("note_on", ch, n) else some ("note_off", ch, n)
  | .note_off ch n _ => some ("note_off", ch, n)
  | .control_change ch c _ => some ("control_change", ch, c)
  | .other _ _ => none

/-! ## MIDI Learn mode (`MappingWidget`, src/ui/mapping_widget.py) -/

/-- The learn-mode state of `MappingWidget`: the `learning_mode` flag and the
trigger key currently shown in the form controls
(`signal_type_combo`, `channel_spin`, `note_control_spin`), `none` while no
message has been captured (`current_midi_message = None`). -/
structure LearnState : Type where
  learning : Bool
  captured : Option (String × Nat × Nat)
deriving DecidableEq, Repr

/-- `MappingWidget.toggle_learn_mode` (mapping_widget.py:232-241), driven by
the checked state of the learn button. -/
def toggle_learn_mode (checked : Bool) (st : LearnState) : LearnState :=
  if checked then { learning := true, captured := none }
  else { st with learning := false }

/-- `MappingWidget.on_raw_midi_message` (mapping_widget.py:243-265): while
learning, a `note_on`/`note_off`/`control_change` is captured into the form
controls and learn mode is exited — except that a `note_on` with velocity 0
is ignored by the early `return` (the code comment reads "Ignore note_on
with velocity 0 (equivalent to note_off)"); any other message type falls
through with no state change. -/
def on_raw_midi_message (st : LearnState) (m : MidiMessage) : LearnState :=
  if st.learning then
    match m with
    | .note_on ch n v =>
      if v = 0 then st
      else { learning := false, captured := some ("note_on", ch, n) }
    | .note_off ch n _ => { learning := false, captured := some ("note_off", ch, n) }
    | .control_change ch c _ => { learning := false, captured := some ("control_change", ch, c) }
    | .other _ _ => st
  else st

/-! ## Request building (`ApiClient.call_endpoint` / `_make_request`, src/api_client.py) -/

/-- One path segment of the substitution loop at api_client.py:180-187:
a non-empty segment starting with `:` is replaced by
`path_params[var_name]` when bound; when unbound, the code logs
`"Missing path parameter value for %s"` and leaves the segment unchanged.
Returns the resulting segment and any warning logged. -/
def substSegment (path_params : List (String × String)) (part : String) :
    String × List String :=
  if !part.data.isEmpty && pyStartsWith part ':' then
    let varName := pyDrop1 part
    match dlookup path_params varName with
    | some v => (v, [])
    | none => (part, ["Missing path parameter value for " ++ varName])
  else (part, [])

/-- The path-substitution block of `call_endpoint` (api_client.py:176-190):
guarded by Python truthiness of `path_params` (an empty dict skips the whole
block); split on `/`, substitute each segment, rejoin.  Returns the built
path together with the warnings logged for unbound placeholders. -/
def substPath (endpoint : String) (path_params : List (String × String)) :
    String × List String :=
  if path_params.isEmpty then (endpoint, [])
  else
    let results := (pySplit endpoint '/').map (substSegment path_params)
    (pyJoin '/' (results.map Prod.fst), (results.map Prod.snd).flatten)

/-- The method-prefix extraction shared by `call_endpoint`
(api_client.py:168-174) and `on_midi_signal` (app.py:122-127):
`" " in endpoint and endpoint.split(" ")[0] in ["GET","POST","PUT","DELETE"]`,
then `endpoint.split(" ", 1)`. -/
def extractMethod (endpoint : String) : Option String × String :=
  if pyContainsChar endpoint ' ' &&
      (["GET", "POST", "PUT", "DELETE"] : List String).contains
        ((pySplit endpoint ' ').headD "") then
    let (m, rest) := pySplit1 endpoint ' '
    (some m, rest)
  else (none, endpoint)

/-- The concrete request assembled by `call_endpoint` just before the
network call: resolved method string, built path, query parameters, headers,
body payload, plus the warnings logged during path substitution. -/
structure BuiltRequest : Type where
  method : String
  path : String
  params : List (String × String)
  headers : List (String × String)
  body : List (String × String)
  warnings : List String
deriving DecidableEq, Repr

/-- The verb actually issued on the session for a resolved method string
(api_client.py:207-214): `GET`/`PUT`/`DELETE` after `.upper()`, anything
else falls to the `else` branch and is sent as POST. -/
def issuedVerb (method : String) : String :=
  if method.toUpper = "GET" then "GET"
  else if method.toUpper = "PUT" then "PUT"
  else if method.toUpper = "DELETE" then "DELETE"
  else "POST"

/-- `ApiClient.call_endpoint` (api_client.py:154-217) up to the network
call, which it never fails to reach: leading-slash normalization, method
resolution (note: the prefix extraction runs on the already
slash-prefixed string), path substitution, `clientId` query injection and
header assembly.  `api_key`, `client_id` are the configured
`ApiClient` fields; `params`, `data`, `path_params`, `method?` are the
call's arguments (`None` modelled as an empty list / `none`). -/
def resolveMethod (endpoint : String) (method? : Option String) : String × String :=
  match method? with
  | some m => (m, endpoint)
  | none =>
    match extractMethod endpoint with
    | (some m, rest) => (m, rest)
    | (none, _) => ("POST", endpoint)

def call_endpoint (api_key client_id : String) (endpoint : String)
    (params : List (String × String)) (data : List (String × String))
    (path_params : List (String × String)) (method? : Option String) :
    BuiltRequest :=
  let endpoint₀ := if pyStartsWith endpoint '/' then endpoint else "/" ++ endpoint
  let me := resolveMethod endpoint₀ method?
  let method := me.1
  let endpoint₁ := me.2
  let sw := substPath endpoint₁ path_params
  { method := method
    path := sw.1
    params := if client_id ≠ "" then dinsert params "clientId" client_id else params
    headers :=
      if client_id ≠ "" then dinsert [("x-api-key", api_key)] "Client-ID" client_id
      else [("x-api-key", api_key)]
    body := if issuedVerb method = "GET" ∨ issuedVerb method = "DELETE" then [] else data
    warnings := sw.2 }

/-- A request issued by `ApiClient._make_request` (api_client.py:222-236):
method, normalized path, headers, and the query parameters passed through
`kwargs` (the internal callers — connectivity probe, client list, docs
fetch — pass none). -/
structure SimpleRequest : Type where
  method : String
  path : String
  headers : List (String × String)
  params : List (String × String)
deriving DecidableEq, Repr

/-- `ApiClient._make_request`: prepends the missing leading slash, forces
the `x-api-key` header, adds the `Client-ID` header when a client id is
configured, and forwards everything else (including any query parameters
in `kwargs`) unchanged. -/
def make_request (api_key client_id method endpoint : String)
    (kwargsHeaders kwargsParams : List (String × String)) : SimpleRequest :=
  let endpoint := if pyStartsWith endpoint '/' then endpoint else "/" ++ endpoint
  let headers := dinsert kwargsHeaders "x-api-key" api_key
  let headers :=
    if client_id ≠ "" then dinsert headers "Client-ID" client_id else headers
  { method := method, path := endpoint, headers := headers, params := kwargsParams }

/-- `MidiRestApp.on_midi_signal` (app.py:119-141): extracts the HTTP method
from the mapping's endpoint string before calling `call_endpoint`, passing
the method explicitly. -/
def on_midi_signal_build (api_key client_id endpoint : String)
    (query_params body_params path_params : List (String × String)) :
    BuiltRequest :=
  let ex := extractMethod endpoint
  call_endpoint api_key client_id ex.2 query_params body_params
    path_params ex.1

/-! ## Mapping persistence (`ConfigManager`, src/config_manager.py) -/

/-- A structured mapping value: the JSON object shape.  `path_params` is
optional because the object written for a legacy entry
(config_manager.py:37-41) has no `path_params` key, while entries created
by `MidiHandler.add_mapping` do. -/
structure StructuredMapping : Type where
  endpoint : String
  query_params : List (String × String)
  body_params : List (String × String)
  path_params : Option (List (String × String))
deriving DecidableEq, Repr

/-- A mapping-table value: either a legacy bare endpoint string or a
structured object.  The same sum also describes a value slot of the
persisted JSON file. -/
inductive MappingValue : Type
  | legacy (endpoint : String)
  | structured (m : StructuredMapping)
deriving DecidableEq, Repr

/-- Whether a persisted value has the structured (JSON object) shape. -/
def MappingValue.isStructured : MappingValue → Bool
  | .legacy _ => false
  | .structured _ => true

/-- The key serialization of `save_mappings` (config_manager.py:30):
`f"{msg_type}:{channel}:{note_control}"`. -/
def serializeKey (k : String × Nat × Nat) : String :=
  k.1 ++ ":" ++ pyStrOfNat k.2.1 ++ ":" ++ pyStrOfNat k.2.2

/-- `ConfigManager.save_mappings` (config_manager.py:23-48): tuple keys
become `kind:channel:index` strings; a dict value is written as-is, a
legacy string value is wrapped into
`{"endpoint": s, "query_params": {}, "body_params": {}}`. -/
def save_mappings (mappings : List ((String × Nat × Nat) × MappingValue)) :
    List (String × MappingValue) :=
  mappings.map fun kv =>
    (serializeKey kv.1,
     match kv.2 with
     | .structured m => .structured m
     | .legacy e => .structured ⟨e, [], [], none⟩)

/-- One entry of the loop in `load_mappings` (config_manager.py:63-76).
`key.split(':')` must produce exactly three fields and both numeric fields
must parse (`int` raises otherwise); a dict value carrying an `"endpoint"`
key is kept as-is; a bare string value reaches the legacy branch, where
`mapping_data.get("query_params", {})` raises `AttributeError` on a `str`.
Any of these exceptions aborts the whole load (`none`). -/
def loadEntry (entry : String × MappingValue) :
    Option ((String × Nat × Nat) × MappingValue) :=
  match pySplit entry.1 ':' with
  | [t, c, n] =>
    match pyToNat? c, pyToNat? n with
    | some cv, some nv =>
      match entry.2 with
      | .structured m => some ((t, cv, nv), .structured m)
      | .legacy _ => none
    | _, _ => none
  | _ => none

/-- The conversion loop of `load_mappings`: entries are converted in order
until one raises (`none`), in which case the exception propagates out of
the loop. -/
def loadAll : List (String × MappingValue) →
    Option (List ((String × Nat × Nat) × MappingValue))
  | [] => some []
  | e :: rest =>
    match loadEntry e, loadAll rest with
    | some kv, some tbl => some (kv :: tbl)
    | _, _ => none

/-- `ConfigManager.load_mappings` (config_manager.py:50-82): converts every
entry back; any exception in the loop is caught by the enclosing
`try/except`, which logs the error and returns the empty table. -/
def load_mappings (file : List (String × MappingValue)) :
    List ((String × Nat × Nat) × MappingValue) :=
  match loadAll file with
  | some table => table
  | none => []

/-- The normalization that one save/load round trip applies to a table
value: a legacy bare string becomes the structured object written by
`save_mappings`; a structured value is untouched. -/
def normalizeValue : MappingValue → MappingValue
  | .legacy e => .structured ⟨e, [], [], none⟩
  | .structured m => .structured m

/-! ## Helper lemmas -/

theorem dlookup_dinsert_self {α β : Type} [DecidableEq α]
    (d : List (α × β)) (k : α) (v : β) :
    dlookup (dinsert d k v) k = some v := by
  induction d with
  | nil => simp [dinsert, dlookup]
  | cons hd tl ih =>
    obtain ⟨k', v'⟩ := hd
    by_cases h : k' = k
    · simp [dinsert, dlookup, h]
    · simp [dinsert, dlookup, h, ih]

theorem dlookup_dinsert_ne {α β : Type} [DecidableEq α]
    (d : List (α × β)) (k k' : α) (v : β) (h : k ≠ k') :
    dlookup (dinsert d k v) k' = dlookup d k' := by
  induction d with
  | nil => simp [dinsert, dlookup, h]
  | cons hd tl ih =>
    obtain ⟨a, b⟩ := hd
    by_cases ha : a = k
    · subst ha
      simp [dinsert, dlookup, h]
    · simp [dinsert, dlookup, ha, ih]

theorem strData_append (s t : String) : (s ++ t).data = s.data ++ t.data := rfl

theorem splitChar_ne_nil (sep : Char) (cs : List Char) : splitChar sep cs ≠ [] := by
  cases cs with
  | nil => simp [splitChar]
  | cons c rest =>
    by_cases h : c = sep
    · simp [splitChar, h]
    · simp only [splitChar, if_neg h]
      cases splitChar sep rest <;> simp

theorem splitChar_not_mem (sep : Char) (cs : List Char) (h : sep ∉ cs) :
    splitChar sep cs = [cs] := by
  induction cs with
  | nil => rfl
  | cons c rest ih =>
    have hc : c ≠ sep := fun he => h (by simp [he])
    have hrest : sep ∉ rest := fun hm => h (by simp [hm])
    simp [splitChar, hc, ih hrest]

theorem splitChar_append (sep : Char) (a b : List Char) (h : sep ∉ a) :
    splitChar sep (a ++ sep :: b) = a :: splitChar sep b := by
  induction a with
  | nil => simp [splitChar]
  | cons c rest ih =>
    have hc : c ≠ sep := fun he => h (by simp [he])
    have hrest : sep ∉ rest := fun hm => h (by simp [hm])
    simp only [List.cons_append, splitChar, if_neg hc]
    rw [show rest.append (sep :: b) = rest ++ sep :: b from rfl, ih hrest]

theorem digitChar_toNat (d : Nat) (h : d ≤ 9) :
    (Char.ofNat (48 + d)).toNat = 48 + d := by
  interval_cases d <;> decide

theorem isDigitChar_digitChar (d : Nat) (h : d ≤ 9) :
    isDigitChar (Char.ofNat (48 + d)) = true := by
  interval_cases d <;> decide

theorem digitChar_ne_colon (d : Nat) (h : d ≤ 9) :
    Char.ofNat (48 + d) ≠ ':' := by
  interval_cases d <;> decide

theorem natToCharsAux_ne_nil (fuel n : Nat) :
    natToCharsAux (fuel + 1) n ≠ [] := by
  by_cases h : n < 10 <;> simp [natToCharsAux, h]

theorem natToCharsAux_all_digits (fuel : Nat) :
    ∀ n, ∀ c ∈ natToCharsAux fuel n, isDigitChar c = true := by
  induction fuel with
  | zero => intro n c hc; simp [natToCharsAux] at hc
  | succ fuel ih =>
    intro n c hc
    by_cases h : n < 10
    · simp [natToCharsAux, h] at hc
      subst hc
      exact isDigitChar_digitChar n (by omega)
    · simp only [natToCharsAux, if_neg h, List.mem_append, List.mem_singleton] at hc
      rcases hc with hc | hc
      · exact ih (n / 10) c hc
      · subst hc
        exact isDigitChar_digitChar (n % 10) (by omega)

theorem colon_not_mem_natToCharsAux (fuel n : Nat) :
    ':' ∉ natToCharsAux fuel n := by
  intro hmem
  have := natToCharsAux_all_digits fuel n ':' hmem
  simp [isDigitChar] at this

theorem foldl_natToCharsAux (fuel : Nat) :
    ∀ n, n < fuel →
      (natToCharsAux fuel n).foldl (fun acc c => acc * 10 + (c.toNat - 48)) 0 = n := by
  induction fuel with
  | zero => intro n h; omega
  | succ fuel ih =>
    intro n h
    by_cases h10 : n < 10
    · simp [natToCharsAux, h10, digitChar_toNat n (by omega)]
    · have hdiv : n / 10 < fuel := by
        have h1 : n / 10 < n := Nat.div_lt_self (by omega) (by omega)
        omega
      simp only [natToCharsAux, if_neg h10, List.foldl_append, ih (n / 10) hdiv,
        List.foldl_cons, List.foldl_nil, digitChar_toNat (n % 10) (by omega)]
      omega

theorem pyToNat?_pyStrOfNat (n : Nat) : pyToNat? (pyStrOfNat n) = some n := by
  have hne : natToCharsAux (n + 1) n ≠ [] := natToCharsAux_ne_nil n n
  have hall : (natToCharsAux (n + 1) n).all isDigitChar = true := by
    rw [List.all_eq_true]
    exact fun c hc => natToCharsAux_all_digits (n + 1) n c hc
  simp only [pyToNat?, pyStrOfNat, Bool.and_eq_true, ne_eq, decide_eq_true_eq]
  rw [if_pos ⟨by simpa using hne, hall⟩]
  exact congrArg some (foldl_natToCharsAux (n + 1) n (by omega))

theorem serializeKey_data (t : String) (c n : Nat) :
    (serializeKey (t, c, n)).data =
      t.data ++ ':' :: (natToCharsAux (c + 1) c ++ ':' :: natToCharsAux (n + 1) n) := by
  simp [serializeKey, strData_append, pyStrOfNat]

theorem pySplit_serializeKey (t : String) (c n : Nat)
    (h : ¬ (':' ∈ t.data)) :
    pySplit (serializeKey (t, c, n)) ':' = [t, pyStrOfNat c, pyStrOfNat n] := by
  have h1 : splitChar ':' ((serializeKey (t, c, n)).data) =
      t.data :: splitChar ':' (natToCharsAux (c + 1) c ++ ':' :: natToCharsAux (n + 1) n) := by
    rw [serializeKey_data]
    exact splitChar_append ':' t.data _ h
  have h2 : splitChar ':' (natToCharsAux (c + 1) c ++ ':' :: natToCharsAux (n + 1) n) =
      natToCharsAux (c + 1) c :: splitChar ':' (natToCharsAux (n + 1) n) :=
    splitChar_append ':' _ _ (colon_not_mem_natToCharsAux _ _)
  have h3 : splitChar ':' (natToCharsAux (n + 1) n) = [natToCharsAux (n + 1) n] :=
    splitChar_not_mem ':' _ (colon_not_mem_natToCharsAux _ _)
  simp [pySplit, h1, h2, h3, pyStrOfNat]

theorem loadEntry_save (t : String) (c n : Nat) (v : MappingValue)
    (h : ¬ (':' ∈ t.data)) :
    loadEntry (serializeKey (t, c, n),
        match v with
        | .structured m => .structured m
        | .legacy e => .structured ⟨e, [], [], none⟩) =
      some ((t, c, n), normalizeValue v) := by
  rw [loadEntry]
  simp only [pySplit_serializeKey t c n h, pyToNat?_pyStrOfNat]
  cases v <;> rfl

theorem splitChar_head_cons (sep c : Char) (rest : List Char) (h : c ≠ sep) :
    ∃ g gs, splitChar sep (c :: rest) = (c :: g) :: gs := by
  simp only [splitChar, if_neg h]
  cases hs : splitChar sep rest with
  | nil => exact absurd hs (splitChar_ne_nil sep rest)
  | cons g gs => exact ⟨g, gs, rfl⟩

/-- A string starting with `/` never passes the method-prefix test of
`extractMethod`: the first space-separated token starts with `/` and so is
not one of `GET`/`POST`/`PUT`/`DELETE`. -/
theorem extractMethod_of_slash (e : String) (h : pyStartsWith e '/') :
    extractMethod e = (none, e) := by
  obtain ⟨cs⟩ := e
  simp only [pyStartsWith] at h
  cases cs with
  | nil => simp at h
  | cons c rest =>
    simp only [decide_eq_true_eq] at h
    subst h
    obtain ⟨g, gs, hg⟩ := splitChar_head_cons ' ' '/' rest (by decide)
    have hcon : (["GET", "POST", "PUT", "DELETE"] : List String).contains
        ((pySplit ⟨'/' :: rest⟩ ' ').headD "") = false := by
      simp only [pySplit, hg, List.map_cons, List.headD_cons]
      simp [List.contains, String.ext_iff]
    have hcond : (pyContainsChar ⟨'/' :: rest⟩ ' ' &&
        (["GET", "POST", "PUT", "DELETE"] : List String).contains
          ((pySplit ⟨'/' :: rest⟩ ' ').headD "")) = false := by
      rw [hcon, Bool.and_false]
    simp only [extractMethod, hcond, Bool.false_eq_true, if_false]

/-- After the leading-slash normalization at the top of `call_endpoint`,
the endpoint always starts with `/`. -/
theorem pyStartsWith_slashNorm (e : String) :
    pyStartsWith (if pyStartsWith e '/' then e else "/" ++ e) '/' = true := by
  by_cases h : pyStartsWith e '/'
  · simp [h]
  · rw [if_neg h]
    obtain ⟨cs⟩ := e
    show pyStartsWith ⟨'/' :: cs⟩ '/' = true
    simp [pyStartsWith]

/-- The per-segment substitution, written as the spec states it: the
`part and` truthiness guard in the source is redundant because an empty
segment cannot start with `:`. -/
theorem substSegment_fst (pp : List (String × String)) (seg : String) :
    (substSegment pp seg).1 =
      if pyStartsWith seg ':' then (dlookup pp (pyDrop1 seg)).getD seg else seg := by
  obtain ⟨cs⟩ := seg
  cases cs with
  | nil => simp [substSegment, pyStartsWith]
  | cons c rest =>
    simp only [substSegment, pyStartsWith, List.isEmpty_cons, Bool.not_false,
      Bool.true_and]
    by_cases h : c = ':'
    · simp only [h, decide_True, if_true]
      cases dlookup pp (pyDrop1 ⟨':' :: rest⟩) <;> simp
    · simp [h]

theorem substPath_fst (e : String) (pp : List (String × String)) (h : pp ≠ []) :
    (substPath e pp).1 =
      pyJoin '/' ((pySplit e '/').map fun seg =>
        if pyStartsWith seg ':' then (dlookup pp (pyDrop1 seg)).getD seg else seg) := by
  have hne : pp.isEmpty = false := by
    cases pp with
    | nil => exact absurd rfl h
    | cons a b => rfl
  simp only [substPath, hne, Bool.false_eq_true, if_false, List.map_map]
  simp [Function.comp_def, substSegment_fst]

/-! ## Claims -/

/-- C3: for every channel in [0,15] and note/control in [0,127], the signal
matcher maps a `note_on` with velocity 0 to the same trigger key as a
`note_off` with the same channel and note, namely `(note_off, channel,
note)`; a `note_on` with velocity > 0 maps to `(note_on, channel, note)`; a
`control_change` maps to `(control_change, channel, control)`; any other
message type produces no match. -/
theorem C3_matcher_trigger_keys (ch note ctrl vel : Nat) (t : String)
    (hch : ch ≤ 15) (hnote : note ≤ 127) (hctrl : ctrl ≤ 127)
    (ht : t ∉ (["note_on", "note_off", "control_change"] : List String)) :
    matchKey (.note_on ch note 0) = matchKey (.note_off ch note vel)
    ∧ matchKey (.note_on ch note 0) = some ("note_off", ch, note)
    ∧ (0 < vel → matchKey (.note_on ch note vel) = some ("note_on", ch, note))
    ∧ matchKey (.control_change ch ctrl vel) = some ("control_change", ch, ctrl)
    ∧ matchKey (.other t ch) = none := by
  refine ⟨by simp [matchKey], by simp [matchKey], ?_, rfl, rfl⟩
  intro h
  simp [matchKey, h]

/-- Witness for C3 at channel 0, note 60, control 7, velocity 64 and
message type `program_change`. -/
theorem C3_matcher_trigger_keys_witness :
    matchKey (.note_on 0 60 0) = matchKey (.note_off 0 60 64)
    ∧ matchKey (.note_on 0 60 0) = some ("note_off", 0, 60)
    ∧ (0 < 64 → matchKey (.note_on 0 60 64) = some ("note_on", 0, 60))
    ∧ matchKey (.control_change 0 7 64) = some ("control_change", 0, 7)
    ∧ matchKey (.other "program_change" 0) = none :=
  C3_matcher_trigger_keys 0 60 7 64 "program_change"
    (by decide) (by decide) (by decide) (by decide)

/-- C4: the path-substitution algorithm splits `path_pattern` on `/`,
replaces every segment beginning with `:` by the value bound to its name in
`path_params`, and rejoins with `/`; for `/actors/:id/items/:itemId` with
`{id: "a1", itemId: "i2"}` the built path is exactly
`/actors/a1/items/i2`. -/
theorem C4_path_substitution (p : String) (pp : List (String × String))
    (hne : pp ≠ [])
    (hbound : ∀ seg ∈ pySplit p '/', pyStartsWith seg ':' = true →
      (dlookup pp (pyDrop1 seg)).isSome) :
    (substPath p pp).1 =
      pyJoin '/' ((pySplit p '/').map fun seg =>
        if pyStartsWith seg ':' then (dlookup pp (pyDrop1 seg)).getD seg else seg)
    ∧ (substPath "/actors/:id/items/:itemId" [("id", "a1"), ("itemId", "i2")]).1 =
        "/actors/a1/items/i2" :=
  ⟨substPath_fst p pp hne, by decide⟩

/-- Witness for C4 at the documented example pattern and parameters. -/
theorem C4_path_substitution_witness :
    (substPath "/actors/:id/items/:itemId" [("id", "a1"), ("itemId", "i2")]).1 =
      pyJoin '/' ((pySplit "/actors/:id/items/:itemId" '/').map fun seg =>
        if pyStartsWith seg ':' then
          (dlookup [("id", "a1"), ("itemId", "i2")] (pyDrop1 seg)).getD seg
        else seg)
    ∧ (substPath "/actors/:id/items/:itemId" [("id", "a1"), ("itemId", "i2")]).1 =
        "/actors/a1/items/i2" :=
  C4_path_substitution "/actors/:id/items/:itemId" [("id", "a1"), ("itemId", "i2")]
    (by decide) (by decide)

/-- C5: whenever a non-empty `client_id` is configured, the query
parameters of the request built by `call_endpoint` bind `clientId` to the
configured client id, even when the caller's `query_params` already contain
a `clientId` entry. -/
theorem C5_clientId_override (api_key cid endpoint : String)
    (params data pp : List (String × String)) (method? : Option String)
    (h : cid ≠ "") :
    dlookup (call_endpoint api_key cid endpoint params data pp method?).params
      "clientId" = some cid := by
  simp only [call_endpoint, if_pos h]
  exact dlookup_dinsert_self params "clientId" cid

/-- Witness for C5: configured client id `c1` overrides a user-supplied
`clientId` of `ignored`. -/
theorem C5_clientId_override_witness :
    dlookup (call_endpoint "key" "c1" "/actors/:id" [("clientId", "ignored")]
      [] [("id", "a1")] none).params "clientId" = some "c1" :=
  C5_clientId_override "key" "c1" "/actors/:id" [("clientId", "ignored")]
    [] [("id", "a1")] none (by decide)

/-- C1 (counterexample): contrary to the claim, a placeholder with no
corresponding `path_params` entry does not make `call_endpoint` fail — the
build completes, the placeholder segment survives verbatim in the built
path, and the only surfacing is a `logger.warning` entry; there is no
`TemplateError` anywhere in the code. -/
theorem C1_missing_path_param_counterexample :
    (call_endpoint "key" "" "/actors/:id" [] [] [("other", "x")] none).path
      = "/actors/:id"
    ∧ (call_endpoint "key" "" "/actors/:id" [] [] [("other", "x")] none).warnings
      = ["Missing path parameter value for id"]
    ∧ (call_endpoint "key" "" "/actors/:id" [] [] [("other", "x")] none).method
      = "POST" := by
  refine ⟨by decide, by decide, by decide⟩

/-- C1 (amended): when a placeholder segment of the path pattern has no
entry in a non-empty `path_params`, `call_endpoint` logs the warning
`Missing path parameter value for <name>` and leaves the segment unchanged;
it does not fail, and the request proceeds to dispatch with the raw
placeholder in its path. -/
theorem C1_missing_path_param_amended (api_key cid e m : String)
    (params data pp : List (String × String)) (seg : String)
    (hpp : pp ≠ []) (hstart : pyStartsWith e '/')
    (hseg : seg ∈ pySplit e '/') (hcolon : pyStartsWith seg ':')
    (hmiss : dlookup pp (pyDrop1 seg) = none) :
    substSegment pp seg =
      (seg, ["Missing path parameter value for " ++ pyDrop1 seg])
    ∧ ("Missing path parameter value for " ++ pyDrop1 seg) ∈
        (call_endpoint api_key cid e params data pp (some m)).warnings := by
  have hne : pp.isEmpty = false := by
    cases pp with
    | nil => exact absurd rfl hpp
    | cons a b => rfl
  have hsub : substSegment pp seg =
      (seg, ["Missing path parameter value for " ++ pyDrop1 seg]) := by
    obtain ⟨cs⟩ := seg
    cases cs with
    | nil => simp [pyStartsWith] at hcolon
    | cons c rest =>
      simp only [pyStartsWith, decide_eq_true_eq] at hcolon
      subst hcolon
      simp only [substSegment, List.isEmpty_cons, Bool.not_false, pyStartsWith,
        decide_True, Bool.and_self, if_true, hmiss]
  refine ⟨hsub, ?_⟩
  have hwarn : (call_endpoint api_key cid e params data pp (some m)).warnings =
      (((pySplit e '/').map (substSegment pp)).map Prod.snd).flatten := by
    simp only [call_endpoint, resolveMethod, hstart, if_true, substPath, hne,
      Bool.false_eq_true, if_false]
  rw [hwarn]
  rw [List.mem_flatten]
  refine ⟨(substSegment pp seg).2, ?_, ?_⟩
  · exact List.mem_map_of_mem Prod.snd (List.mem_map_of_mem (substSegment pp) hseg)
  · rw [hsub]
    simp

/-- Witness for the amended C1: pattern `/actors/:id` with `path_params`
lacking `id`. -/
theorem C1_missing_path_param_amended_witness :
    substSegment [("other", "x")] ":id" =
      (":id", ["Missing path parameter value for " ++ pyDrop1 ":id"])
    ∧ ("Missing path parameter value for " ++ pyDrop1 ":id") ∈
        (call_endpoint "key" "" "/actors/:id" [] [] [("other", "x")]
          (some "POST")).warnings :=
  C1_missing_path_param_amended "key" "" "/actors/:id" "POST" [] []
    [("other", "x")] ":id" (by decide) (by decide) (by decide) (by decide)
    (by decide)

/-- C7 (counterexample): with client id `c1` configured, the connectivity
probe issued through `_make_request` (`GET /`) carries no `clientId` query
parameter — `_make_request` only sets headers, so the claim that every
request carries the `clientId` query parameter fails. -/
theorem C7_clientId_query_counterexample :
    ("c1" : String) ≠ ""
    ∧ dlookup (make_request "key" "c1" "GET" "/" [] []).params "clientId"
        = none := by
  refine ⟨by decide, rfl⟩

/-- C7 (amended): every request from both `call_endpoint` and
`_make_request` carries the `x-api-key` header; with a non-empty client id
both also carry the `Client-ID` header; but the `clientId` query parameter
is injected only by `call_endpoint` — `_make_request` forwards the caller's
query parameters unchanged (its internal callers pass none). -/
theorem C7_auth_headers_amended (api_key cid e mth : String)
    (params data pp kh kp : List (String × String)) (m? : Option String) :
    dlookup (call_endpoint api_key cid e params data pp m?).headers "x-api-key"
      = some api_key
    ∧ dlookup (make_request api_key cid mth e kh kp).headers "x-api-key"
      = some api_key
    ∧ (cid ≠ "" →
        dlookup (call_endpoint api_key cid e params data pp m?).headers "Client-ID"
          = some cid)
    ∧ (cid ≠ "" →
        dlookup (make_request api_key cid mth e kh kp).headers "Client-ID"
          = some cid)
    ∧ (cid ≠ "" →
        dlookup (call_endpoint api_key cid e params data pp m?).params "clientId"
          = some cid)
    ∧ (make_request api_key cid mth e kh kp).params = kp := by
  have hkey : ("Client-ID" : String) ≠ "x-api-key" := by decide
  refine ⟨?_, ?_, ?_, ?_, ?_, rfl⟩
  · by_cases h : cid = ""
    · simp [call_endpoint, h, dlookup]
    · simp only [call_endpoint, if_pos h]
      rw [dlookup_dinsert_ne _ _ _ _ hkey]
      simp [dlookup]
  · simp only [make_request]
    by_cases h : cid = ""
    · simp only [h, ne_eq, not_true_eq_false, if_false]
      exact dlookup_dinsert_self kh "x-api-key" api_key
    · simp only [ne_eq, h, not_false_eq_true, if_true]
      rw [dlookup_dinsert_ne _ _ _ _ hkey]
      exact dlookup_dinsert_self kh "x-api-key" api_key
  · intro h
    simp only [call_endpoint, if_pos h]
    exact dlookup_dinsert_self _ "Client-ID" cid
  · intro h
    simp only [make_request, ne_eq, h, not_false_eq_true, if_true]
    exact dlookup_dinsert_self _ "Client-ID" cid
  · intro h
    simp only [call_endpoint, if_pos h]
    exact dlookup_dinsert_self params "clientId" cid

/-- Witness for the amended C7 with client id `c1`, caller headers empty
and one caller query parameter. -/
theorem C7_auth_headers_amended_witness :
    dlookup (call_endpoint "key" "c1" "/status" [("q", "1")] [] [] none).headers
      "x-api-key" = some "key"
    ∧ dlookup (make_request "key" "c1" "GET" "/" [] [("q", "1")]).headers
        "x-api-key" = some "key"
    ∧ (("c1" : String) ≠ "" →
        dlookup (call_endpoint "key" "c1" "/status" [("q", "1")] [] [] none).headers
          "Client-ID" = some "c1")
    ∧ (("c1" : String) ≠ "" →
        dlookup (make_request "key" "c1" "GET" "/" [] [("q", "1")]).headers
          "Client-ID" = some "c1")
    ∧ (("c1" : String) ≠ "" →
        dlookup (call_endpoint "key" "c1" "/status" [("q", "1")] [] [] none).params
          "clientId" = some "c1")
    ∧ (make_request "key" "c1" "GET" "/" [] [("q", "1")]).params = [("q", "1")] :=
  C7_auth_headers_amended "key" "c1" "/status" "GET" [("q", "1")] [] [] []
    [("q", "1")] none

/-- C10 (counterexample): with no explicit method, `call_endpoint` given the
endpoint string `GET /status` does NOT strip the prefix and use GET — the
leading-slash normalization (`'/' + endpoint`) runs first, so the first
space-separated token is `/GET`, the inline extraction never matches, and
the request goes out as POST with the prefix still inside the path. -/
theorem C10_method_prefix_counterexample :
    (call_endpoint "key" "" "GET /status" [] [] [] none).method = "POST"
    ∧ (call_endpoint "key" "" "GET /status" [] [] [] none).path
        = "/GET /status" := by
  refine ⟨by decide, by decide⟩

/-- C10 (amended): inside `call_endpoint` the method-prefix extraction is
unreachable, so with no explicit method the request method is always POST;
the prefix handling lives in `on_midi_signal`, which extracts the method
from the mapping's endpoint string before calling `call_endpoint`, so via
the dispatch path a prefixed endpoint is issued with the prefix as its
method and the prefix stripped from the path. -/
theorem C10_method_default_amended (api_key cid e₁ e₂ m rest : String)
    (qp bp pp qp₂ bp₂ pp₂ : List (String × String))
    (hex : extractMethod e₂ = (some m, rest)) :
    (call_endpoint api_key cid e₁ qp bp pp none).method = "POST"
    ∧ (on_midi_signal_build api_key cid e₂ qp₂ bp₂ pp₂).method = m
    ∧ (on_midi_signal_build api_key cid e₂ qp₂ bp₂ pp₂).path =
        (substPath (if pyStartsWith rest '/' then rest else "/" ++ rest) pp₂).1 := by
  refine ⟨?_, ?_, ?_⟩
  · have hsn := pyStartsWith_slashNorm e₁
    simp only [call_endpoint, resolveMethod, extractMethod_of_slash _ hsn]
  · simp only [on_midi_signal_build, hex, call_endpoint, resolveMethod]
  · simp only [on_midi_signal_build, hex, call_endpoint, resolveMethod]

/-- Witness for the amended C10: endpoint `GET /status` dispatched through
`on_midi_signal` is issued as GET on `/status`; a bare `/status` with no
method defaults to POST. -/
theorem C10_method_default_amended_witness :
    (call_endpoint "key" "" "/status" [] [] [] none).method = "POST"
    ∧ (on_midi_signal_build "key" "" "GET /status" [] [] []).method = "GET"
    ∧ (on_midi_signal_build "key" "" "GET /status" [] [] []).path =
        (substPath (if pyStartsWith "/status" '/' then "/status"
          else "/" ++ "/status") []).1 :=
  C10_method_default_amended "key" "" "/status" "GET /status" "GET" "/status"
    [] [] [] [] [] [] (by decide)

/-- C2: in the listener loop, a message whose type is `note_on` or
`note_off` is always forwarded; a non-edge message whose dedup key is in
the buffer and whose arrival time is within 100 ms (strictly) of the last
accepted occurrence is dropped, leaving the buffer unchanged (so the stored
timestamp remains that of the last *accepted* occurrence); any message
arriving 100 ms or more after the last accepted occurrence of its key is
accepted and refreshes the timestamp. -/
theorem C2_listener_dedup (buf : MsgBuffer) (m : MidiMessage) (t : ℚ) :
    ((m.typeStr = "note_on" ∨ m.typeStr = "note_off") →
      listenerStep buf m t = (dinsert buf (messageKey m) t, true))
    ∧ (∀ ts : ℚ, m.typeStr ≠ "note_on" → m.typeStr ≠ "note_off" →
        dlookup buf (messageKey m) = some ts → t - ts < bufferTimeout →
        listenerStep buf m t = (buf, false))
    ∧ (∀ ts : ℚ, dlookup buf (messageKey m) = some ts →
        bufferTimeout ≤ t - ts →
        listenerStep buf m t = (dinsert buf (messageKey m) t, true)) := by
  cases hl : dlookup buf (messageKey m) with
  | none =>
    refine ⟨fun _ => by simp [listenerStep, hl], ?_, ?_⟩
    · intro ts _ _ hsome _
      exact absurd hsome (by simp)
    · intro ts hsome _
      exact absurd hsome (by simp)
  | some ts' =>
    refine ⟨?_, ?_, ?_⟩
    · intro hedge
      have hcond : ¬(m.typeStr ∉ (["note_off", "note_on"] : List String)
          ∧ t - ts' < bufferTimeout) := by
        rcases hedge with h | h <;> simp [h]
      simp only [listenerStep, hl]
      rw [if_neg hcond]
    · intro ts h1 h2 hsome hlt
      have hts : ts' = ts := Option.some.inj hsome
      subst hts
      have hcond : m.typeStr ∉ (["note_off", "note_on"] : List String)
          ∧ t - ts' < bufferTimeout := ⟨by simp [h1, h2], hlt⟩
      simp only [listenerStep, hl]
      rw [if_pos hcond]
    · intro ts hsome hle
      have hts : ts' = ts := Option.some.inj hsome
      subst hts
      have hcond : ¬(m.typeStr ∉ (["note_off", "note_on"] : List String)
          ∧ t - ts' < bufferTimeout) :=
        fun hc => absurd hc.2 (not_lt.mpr hle)
      simp only [listenerStep, hl]
      rw [if_neg hcond]

/-- Witness for C2, matching the spec's scenario: with a `control_change`
on `(channel 0, control 7)` accepted at time 0, a repeat at 50 ms is
dropped without touching the buffer, a repeat at 150 ms is accepted, and a
`note_on` is forwarded even though nothing about its timing is known. -/
theorem C2_listener_dedup_witness :
    listenerStep [(("control_change", 0, -1, 7), 0)] (.control_change 0 7 64)
        (1 / 20) = ([(("control_change", 0, -1, 7), 0)], false)
    ∧ listenerStep [(("control_change", 0, -1, 7), 0)] (.control_change 0 7 64)
        (3 / 20) = (dinsert [(("control_change", 0, -1, 7), 0)]
          (messageKey (.control_change 0 7 64)) (3 / 20), true)
    ∧ listenerStep [(("control_change", 0, -1, 7), 0)] (.note_on 0 60 100)
        (1 / 20) = (dinsert [(("control_change", 0, -1, 7), 0)]
          (messageKey (.note_on 0 60 100)) (1 / 20), true) := by
  refine ⟨?_, ?_, ?_⟩
  · exact (C2_listener_dedup _ _ _).2.1 0 (by decide) (by decide) (by decide)
      (by norm_num [bufferTimeout])
  · exact (C2_listener_dedup _ _ _).2.2 0 (by decide)
      (by norm_num [bufferTimeout])
  · exact (C2_listener_dedup _ _ _).1 (Or.inl rfl)

/-- C9 (counterexample): while learn mode is active, a zero-velocity
`note_on` is NOT captured as a `note_off` — `on_raw_midi_message` returns
with the state untouched, so nothing is captured and learn mode stays
active, contrary to the claim's "zero-velocity note_on treated as a
note_off". -/
theorem C9_learn_zero_velocity_counterexample :
    on_raw_midi_message ⟨true, none⟩ (.note_on 3 60 0) = ⟨true, none⟩ := by
  decide

/-- C9 (amended): while learn mode is active, the next `note_on` with
positive velocity, `note_off`, or `control_change` is captured under its
own type string and learn mode deactivates itself (one-shot); a `note_on`
with velocity 0 is ignored and leaves learn mode active, as does any
non-qualifying message type. -/
theorem C9_learn_one_shot_amended (st : LearnState) (ch n c v : Nat)
    (hlearn : st.learning = true) :
    (0 < v → on_raw_midi_message st (.note_on ch n v)
      = ⟨false, some ("note_on", ch, n)⟩)
    ∧ on_raw_midi_message st (.note_off ch n v)
      = ⟨false, some ("note_off", ch, n)⟩
    ∧ on_raw_midi_message st (.control_change ch c v)
      = ⟨false, some ("control_change", ch, c)⟩
    ∧ on_raw_midi_message st (.note_on ch n 0) = st
    ∧ ∀ ty, on_raw_midi_message st (.other ty ch) = st := by
  refine ⟨?_, ?_, ?_, ?_, fun ty => ?_⟩
  · intro hv
    have : v ≠ 0 := Nat.pos_iff_ne_zero.mp hv
    simp [on_raw_midi_message, hlearn, this]
  · simp [on_raw_midi_message, hlearn]
  · simp [on_raw_midi_message, hlearn]
  · simp [on_raw_midi_message, hlearn]
  · simp [on_raw_midi_message, hlearn]

/-- Witness for the amended C9 in the freshly-activated learn state. -/
theorem C9_learn_one_shot_amended_witness :
    (0 < 100 → on_raw_midi_message ⟨true, none⟩ (.note_on 3 60 100)
      = ⟨false, some ("note_on", 3, 60)⟩)
    ∧ on_raw_midi_message ⟨true, none⟩ (.note_off 3 60 100)
      = ⟨false, some ("note_off", 3, 60)⟩
    ∧ on_raw_midi_message ⟨true, none⟩ (.control_change 3 7 100)
      = ⟨false, some ("control_change", 3, 7)⟩
    ∧ on_raw_midi_message ⟨true, none⟩ (.note_on 3 60 0) = ⟨true, none⟩
    ∧ ∀ ty, on_raw_midi_message ⟨true, none⟩ (.other ty 3) = ⟨true, none⟩ :=
  C9_learn_one_shot_amended ⟨true, none⟩ 3 60 7 100 rfl

/-- C8 (counterexample): contrary to the claim, a MIDI input port that
cannot be opened does not make `connect_to_device` return false — the port
is opened inside the listener thread's `run`, so `connect_to_device`
reports success while the thread terminates with only a log entry and no
emitted events. -/
theorem C8_connect_failure_counterexample :
    connect_to_device false false = true
    ∧ (listenerRun false "open failed" []).2 = []
    ∧ (listenerRun false "open failed" []).1 = ["MIDI Error: open failed"] :=
  ⟨rfl, rfl, rfl⟩

/-- C8 (amended): `connect_to_device` returns false exactly when creating
or starting the listener thread raises, independently of whether the port
can be opened; a port-open failure surfaces only in the listener thread,
which logs one error and emits nothing, with no retry (the result ignores
any pending events); a fault during the polling loop terminates the loop
(no later event is processed) and, when no earlier fault occurred, is
reported exactly once on the log side channel — never raised into the
dispatch path. -/
theorem C8_connect_failure_amended (ts po : Bool) (err d : String)
    (evs post : List PollEvent) (pre : List PollEvent) (buf : MsgBuffer)
    (hpre : ∀ ev ∈ pre, ∀ s, ev ≠ PollEvent.fault s) :
    connect_to_device ts po = !ts
    ∧ listenerRun false err evs = (["MIDI Error: " ++ err], [])
    ∧ listenerLoop buf (pre ++ PollEvent.fault d :: post)
        = listenerLoop buf (pre ++ [PollEvent.fault d])
    ∧ (listenerLoop buf (pre ++ PollEvent.fault d :: post)).1
        = ["MIDI Error: " ++ d] := by
  refine ⟨by cases ts <;> rfl, rfl, ?_, ?_⟩
  · induction pre generalizing buf with
    | nil => rfl
    | cons ev rest ih =>
      cases ev with
      | fault s => rfl
      | msg m t =>
        have hrest : ∀ ev ∈ rest, ∀ s, ev ≠ PollEvent.fault s :=
          fun ev hev => hpre ev (List.mem_cons_of_mem _ hev)
        simp only [List.cons_append, listenerLoop, List.append_eq]
        rw [ih _ hrest]
  · induction pre generalizing buf with
    | nil => rfl
    | cons ev rest ih =>
      cases ev with
      | fault s => exact absurd rfl (hpre _ (List.mem_cons_self _ _) s)
      | msg m t =>
        have hrest : ∀ ev ∈ rest, ∀ s, ev ≠ PollEvent.fault s :=
          fun ev hev => hpre ev (List.mem_cons_of_mem _ hev)
        simp only [List.cons_append, listenerLoop, List.append_eq]
        exact ih _ hrest

/-- Witness for the amended C8: one healthy note message precedes a
`port removed` fault; one message follows the fault and is never seen. -/
theorem C8_connect_failure_amended_witness :
    connect_to_device false false = !false
    ∧ listenerRun false "open failed" [PollEvent.msg (.note_on 0 60 100) 0]
        = (["MIDI Error: open failed"], [])
    ∧ listenerLoop [] (PollEvent.msg (.note_on 0 60 100) 0
          :: PollEvent.fault "port removed"
          :: [PollEvent.msg (.note_off 0 60 0) 1])
        = listenerLoop [] (PollEvent.msg (.note_on 0 60 100) 0
          :: [PollEvent.fault "port removed"])
    ∧ (listenerLoop [] (PollEvent.msg (.note_on 0 60 100) 0
          :: PollEvent.fault "port removed"
          :: [PollEvent.msg (.note_off 0 60 0) 1])).1
        = ["MIDI Error: port removed"] :=
  C8_connect_failure_amended false false "open failed" "port removed"
    [PollEvent.msg (.note_on 0 60 100) 0] [PollEvent.msg (.note_off 0 60 0) 1]
    [PollEvent.msg (.note_on 0 60 100) 0] []
    (by
      intro ev hev s
      rw [List.mem_singleton] at hev
      subst hev
      exact fun h => PollEvent.noConfusion h)

/-- C6 (counterexample): a table holding a legacy bare-string entry does
not reload equal to itself — `save_mappings` rewrites the legacy value into
the structured object shape, so the reloaded table differs from the
original. -/
theorem C6_roundtrip_counterexample :
    load_mappings (save_mappings [(("note_on", 0, 60), .legacy "foo")])
      = [(("note_on", 0, 60), .structured ⟨"foo", [], [], none⟩)]
    ∧ load_mappings (save_mappings [(("note_on", 0, 60), .legacy "foo")])
      ≠ [(("note_on", 0, 60), .legacy "foo")] := by
  refine ⟨by decide, by decide⟩

/-- C6 (amended): one save/load round trip reproduces the table up to
normalization of its values — a structured entry reloads identically, a
legacy bare string reloads as the structured object
`{endpoint, query_params: {}, body_params: {}}` with the same endpoint —
every key `(kind, channel, index)` (with `kind` free of `:`) serializes to
`kind:channel:index` and parses back to the identical tuple, and every
value written to the file has the structured shape. -/
theorem C6_roundtrip_amended
    (m : List ((String × Nat × Nat) × MappingValue))
    (hkeys : ∀ kv ∈ m, ':' ∉ kv.1.1.data) :
    load_mappings (save_mappings m)
      = m.map (fun kv => (kv.1, normalizeValue kv.2))
    ∧ ∀ e ∈ save_mappings m, e.2.isStructured = true := by
  constructor
  · have hall : loadAll (save_mappings m)
        = some (m.map (fun kv => (kv.1, normalizeValue kv.2))) := by
      induction m with
      | nil => rfl
      | cons kv rest ih =>
        obtain ⟨⟨t, c, n⟩, v⟩ := kv
        have hk : ':' ∉ t.data := hkeys _ (List.mem_cons_self _ _)
        have hrest : ∀ kv ∈ rest, ':' ∉ kv.1.1.data :=
          fun kv hkv => hkeys kv (List.mem_cons_of_mem _ hkv)
        simp only [save_mappings, List.map_cons, loadAll,
          loadEntry_save t c n v hk]
        rw [show (rest.map fun kv => (serializeKey kv.1,
            match kv.2 with
            | .structured mm => MappingValue.structured mm
            | .legacy e => .structured ⟨e, [], [], none⟩))
          = save_mappings rest from rfl]
        rw [ih hrest]
    simp only [load_mappings, hall]
  · intro e he
    simp only [save_mappings, List.mem_map] at he
    obtain ⟨kv, _, hkv⟩ := he
    subst hkv
    cases kv.2 <;> rfl

/-- Witness for the amended C6 on a two-entry table holding one legacy and
one structured mapping. -/
theorem C6_roundtrip_amended_witness :
    load_mappings (save_mappings [(("note_on", 0, 60), .legacy "foo"),
        (("control_change", 1, 7), .structured ⟨"/bar", [("a", "b")], [], some []⟩)])
      = [(("note_on", 0, 60), .legacy "foo"),
          (("control_change", 1, 7),
            .structured ⟨"/bar", [("a", "b")], [], some []⟩)].map
          (fun kv => (kv.1, normalizeValue kv.2))
    ∧ ∀ e ∈ save_mappings [(("note_on", 0, 60), .legacy "foo"),
        (("control_change", 1, 7), .structured ⟨"/bar", [("a", "b")], [], some []⟩)],
        e.2.isStructured = true :=
  C6_roundtrip_amended
    [(("note_on", 0, 60), .legacy "foo"),
     (("control_change", 1, 7), .structured ⟨"/bar", [("a", "b")], [], some []⟩)]
    (by decide)

end FoundryMidi
